import Mathlib

/-!
Verification development for the reddit-bot repository.

The Python sources (config.py, validators.py, reddit_client.py,
reddit_bot.py) are shallowly embedded as pure Lean functions.  The two
external collaborators are abstracted as explicit inputs:

- the Text Oracle (the agno agent backed by Gemini) is a value of type
  Except String String supplied to each function that runs an agent: the
  ok case carries the response content, the error case carries the
  message of a raised exception;
- the Platform Gateway (praw) is a record of response-producing
  functions, with Except used for calls that may raise.

Python strings are modelled as Lean String values.  The Python string
primitives used by the sources (strip, lower, split, replace,
startswith, the in operator, len) are given executable structural
recursions over the underlying character lists, because the Lean core
string functions do not reduce inside the kernel.  The whitespace set is
the ASCII whitespace set stripped by the Python str.strip default.
-/

/-! ## Python string primitives -/

/-- Characters removed by the Python str.strip default (ASCII part). -/
def pyIsSpace (c : Char) : Bool :=
  c == ' ' || c == '\t' || c == '\n' || c == '\r' || c == '\x0b' || c == '\x0c'

/-- Python str.strip with no argument: drop whitespace from both ends. -/
def pyStrip (s : String) : String :=
  String.mk (((s.data.dropWhile pyIsSpace).reverse.dropWhile pyIsSpace).reverse)

/-- Python len on a string: number of characters. -/
def pyLen (s : String) : Nat :=
  s.data.length

/-- Python str.lower (ASCII letters). -/
def pyLower (s : String) : String :=
  String.mk (s.data.map Char.toLower)

/-- Does the character list pat occur at the start of the second list? -/
def listStarts : List Char → List Char → Bool
  | [], _ => true
  | _ :: _, [] => false
  | p :: ps, t :: ts => p == t && listStarts ps ts

/-- Python s.startswith(pat). -/
def pyStartsWith (s pat : String) : Bool :=
  listStarts pat.data s.data

/-- Does the character list pat occur anywhere inside the second list?
This is the Python substring operator in. -/
def listOccurs (pat : List Char) : List Char → Bool
  | [] => listStarts pat []
  | c :: ts => listStarts pat (c :: ts) || listOccurs pat ts

/-- Python pat in s, the substring containment test. -/
def pyIn (pat s : String) : Bool :=
  listOccurs pat.data s.data

/-- Split a character list at every occurrence of the character c,
keeping empty segments, as Python str.split with a one-character
separator does. -/
def splitOnChar (c : Char) : List Char → List (List Char)
  | [] => [[]]
  | a :: as =>
    let r := splitOnChar c as
    if a == c then [] :: r
    else
      match r with
      | [] => [[a]]
      | h :: t => (a :: h) :: t

/-- Python s.split with a newline separator. -/
def pySplitNewline (s : String) : List String :=
  (splitOnChar '\n' s.data).map String.mk

/-- Worker for replaceList.  The first argument counts characters still
to be skipped because they belong to an occurrence of the pattern that
was already rewritten; recursion is structural on the character list so
that the kernel can evaluate it. -/
def replaceGo (pat rep : List Char) : Nat → List Char → List Char
  | _, [] => []
  | 0, c :: cs =>
    if !pat.isEmpty && listStarts pat (c :: cs) then
      rep ++ replaceGo pat rep (pat.length - 1) cs
    else
      c :: replaceGo pat rep 0 cs
  | Nat.succ k, _ :: cs => replaceGo pat rep k cs

/-- Replace every non-overlapping occurrence of pat by rep, scanning
left to right, as Python str.replace does.  The call sites in the
sources always pass a non-empty pattern; for an empty pattern this
function leaves the list unchanged. -/
def replaceList (pat rep : List Char) (l : List Char) : List Char :=
  replaceGo pat rep 0 l

/-- Python s.replace(pat, rep). -/
def pyReplace (s pat rep : String) : String :=
  String.mk (replaceList pat.data rep.data s.data)

/-- Python newline.join(lines). -/
def joinWithNewline : List String → String
  | [] => ""
  | [l] => l
  | l :: ls => l ++ "\n" ++ joinWithNewline ls

/-! ## Configuration constants (config.py, class Config) -/

namespace Config

def MIN_COMMENT_LENGTH : Nat := 10

def MAX_COMMENT_LENGTH : Nat := 10000

end Config

/-! ## Content Validator (validators.py, class RedditValidator) -/

/-- Outcome of validate_comment.  The oracleCalled field records whether
the embedded run call on the validation agent was reached, so that the
short-circuiting of the structural checks is observable. -/
structure VCResult where
  ok : Bool
  reason : String
  oracleCalled : Bool
deriving DecidableEq, Repr

/-- Shallow embedding of RedditValidator.validate_comment.  The oracle
argument stands for the run call on the validation agent: ok carries the
response content, error carries the message of a raised exception, which
the source catches and converts into a rejecting verdict. -/
def validate_comment (comment_text post_context : String)
    (oracle : Except String String) : VCResult :=
  if pyLen (pyStrip comment_text) < Config.MIN_COMMENT_LENGTH then
    { ok := false
      reason := "Comment too short (minimum " ++ toString Config.MIN_COMMENT_LENGTH
        ++ " characters)"
      oracleCalled := false }
  else if pyLen comment_text > Config.MAX_COMMENT_LENGTH then
    { ok := false
      reason := "Comment too long (maximum " ++ toString Config.MAX_COMMENT_LENGTH
        ++ " characters)"
      oracleCalled := false }
  else
    match oracle with
    | Except.error e =>
      { ok := false, reason := "Validation error: " ++ e, oracleCalled := true }
    | Except.ok content =>
      let result := pyStrip content
      if pyStartsWith result "VALID" then
        { ok := true, reason := "Comment is valid", oracleCalled := true }
      else if pyStartsWith result "INVALID" then
        { ok := false, reason := pyStrip (pyReplace result "INVALID:" ""),
          oracleCalled := true }
      else
        { ok := pyIn "valid" (pyLower result),
          reason := "Content validation completed", oracleCalled := true }

/-- The test applied by generate_comment to drop self-referential lines:
Python line.startswith with the tuple of three literals. -/
def startsWithMetaTag (line : String) : Bool :=
  pyStartsWith line "Here" || pyStartsWith line "This comment" ||
    pyStartsWith line "I generated"

/-- Shallow embedding of RedditValidator.generate_comment.  The prompt
construction has no effect on the returned value, so the function takes
the oracle outcome directly: ok carries the response content of the
comment generator agent, error carries the message of a raised
exception. -/
def generate_comment (oracle : Except String String) : String :=
  match oracle with
  | Except.error e => "Error generating comment: " ++ e
  | Except.ok content =>
    let generated_comment := pyStrip content
    let lines := (pySplitNewline generated_comment).filterMap fun line =>
      if pyStrip line != "" && !startsWithMetaTag line then
        some (pyStrip line)
      else none
    if lines.isEmpty then generated_comment else joinWithNewline lines

/-- One character of the class inside the pattern for subreddit names. -/
def isWordChar (c : Char) : Bool :=
  ('A' ≤ c && c ≤ 'Z') || ('a' ≤ c && c ≤ 'z') || ('0' ≤ c && c ≤ '9') || c == '_'

/-- Python re.match against the anchored pattern of 3 to 21 word
characters, as a full-string test.  The dollar anchor of the Python re
module also matches just before a single trailing newline, which the
second disjunct reproduces. -/
def subredditPatternAccepts (s : String) : Bool :=
  let core := fun (l : List Char) =>
    decide (3 ≤ l.length) && decide (l.length ≤ 21) && l.all isWordChar
  core s.data ||
    (match s.data.getLast? with
     | some c => c == '\n' && core s.data.dropLast
     | none => false)

/-- Shallow embedding of RedditValidator.validate_subreddit_name. -/
def validate_subreddit_name (subreddit : String) : Bool × String :=
  if subreddit == "" then
    (false, "Subreddit name cannot be empty")
  else
    let cleaned := pyReplace (pyReplace subreddit "r/" "") "R/" ""
    if !subredditPatternAccepts cleaned then
      (false, "Invalid subreddit name format")
    else
      (true, cleaned)

/-- A Python dict as seen by validate_post_data: only the two required
keys are inspected, each possibly absent. -/
structure PostDataDict where
  title : Option String
  id : Option String
deriving DecidableEq, Repr

/-- Shallow embedding of RedditValidator.validate_post_data.  The source
iterates over the required fields title and id in that order and then
rejects a blank title. -/
def validate_post_data (post_data : PostDataDict) : Bool × String :=
  match post_data.title with
  | none => (false, "Missing required field: title")
  | some t =>
    match post_data.id with
    | none => (false, "Missing required field: id")
    | some _ =>
      if pyStrip t == "" then (false, "Post title cannot be empty")
      else (true, "Post data is valid")

/-! ## Reddit client (reddit_client.py, class RedditClient) -/

/-- The fields of a post dictionary that the embedded code reads.  The
source builds dictionaries with further fields (upvote ratio, url and so
on) that no modelled operation inspects. -/
structure PostInfo where
  id : String
  title : String
  author : String
  score : Int
  num_comments : Nat
  created_utc : Nat
  selftext : String
  locked : Bool
  over_18 : Bool
  permalink : String
deriving DecidableEq, Repr

/-- View of a constructed post dictionary through the two keys that
validate_post_data inspects; both are always present on dictionaries
built by the client. -/
def PostInfo.fields (p : PostInfo) : PostDataDict :=
  { title := some p.title, id := some p.id }

/-- The per-item loop shared by get_subreddit_posts and search_posts:
each fetched item either extracts to a dictionary or raises during
extraction (the error case), and an extracted dictionary is kept exactly
when validate_post_data accepts it; items that raise are logged and
skipped by the source. -/
def collectValidPosts (items : List (Except String PostInfo)) : List PostInfo :=
  items.filterMap fun item =>
    match item with
    | Except.ok p => if (validate_post_data p.fields).1 then some p else none
    | Except.error _ => none

/-- Shallow embedding of RedditClient.get_subreddit_posts.  The items
argument stands for the sequence produced by the praw listing call; the
result is the error message of a raised ValueError or the returned
list. -/
def get_subreddit_posts (subreddit_name sort_by : String)
    (items : List (Except String PostInfo)) : Except String (List PostInfo) :=
  let v := validate_subreddit_name subreddit_name
  if !v.1 then
    Except.error v.2
  else if !(sort_by == "hot" || sort_by == "new" || sort_by == "top" ||
      sort_by == "rising") then
    Except.error ("Invalid sort method: " ++ sort_by)
  else
    Except.ok (collectValidPosts items)

/-- Shallow embedding of RedditClient.search_posts.  With a subreddit
name the name is validated first; the per-item processing is the same as
in get_subreddit_posts. -/
def search_posts (subreddit_name : Option String)
    (items : List (Except String PostInfo)) : Except String (List PostInfo) :=
  match subreddit_name with
  | some nm =>
    let v := validate_subreddit_name nm
    if !v.1 then Except.error v.2
    else Except.ok (collectValidPosts items)
  | none => Except.ok (collectValidPosts items)

/-- The attributes of a submission that post_comment reads. -/
structure SubmissionInfo where
  title : String
  selftext : String
  locked : Bool
deriving DecidableEq, Repr

/-- The praw exceptions distinguished by post_comment around the reply
call. -/
inductive ReplyError where
  | forbidden
  | tooManyRequests
  | other (msg : String)
deriving DecidableEq, Repr

/-- The data of a successfully created comment. -/
structure ReplyInfo where
  id : String
  permalink : String
deriving DecidableEq, Repr

/-- The dictionary returned by post_comment and
generate_and_post_comment. -/
structure PostCommentResult where
  success : Bool
  error : Option String
  comment_id : Option String
deriving DecidableEq, Repr

/-- Gateway environment for one call of post_comment or
generate_and_post_comment: fetching the submission may raise, the
validator verdict is a function of comment text and post context, and
the reply call either returns the created comment or raises. -/
structure ClientEnv where
  submission : Except String SubmissionInfo
  validateCommentFn : String → String → VCResult
  replyResult : String → Except ReplyError ReplyInfo

/-- The post context string built by post_comment from the submission. -/
def submissionContext (sub : SubmissionInfo) : String :=
  sub.title ++ "\n" ++ sub.selftext

/-- The part of post_comment after the validation gate: the locked check
followed by the reply call and its exception handlers.  The second
component of the result records the text passed to the reply call of the
Gateway, or none when the reply call was never reached. -/
def replyAttempt (env : ClientEnv) (sub : SubmissionInfo)
    (comment_text : String) : PostCommentResult × Option String :=
  if sub.locked then
    ({ success := false,
       error := some "Post is locked and does not allow comments",
       comment_id := none }, none)
  else
    match env.replyResult comment_text with
    | Except.ok c =>
      ({ success := true, error := none, comment_id := some c.id },
       some comment_text)
    | Except.error ReplyError.forbidden =>
      ({ success := false,
         error := some "Forbidden: You may be banned from this subreddit or lack permissions",
         comment_id := none }, some comment_text)
    | Except.error ReplyError.tooManyRequests =>
      ({ success := false,
         error := some "Rate limited: Too many requests. Please wait before posting again",
         comment_id := none }, some comment_text)
    | Except.error (ReplyError.other m) =>
      ({ success := false, error := some m, comment_id := none },
       some comment_text)

/-- Shallow embedding of RedditClient.post_comment.  The second
component of the result records the text submitted to the Gateway, or
none when no reply call happened. -/
def post_comment (env : ClientEnv) (comment_text : String)
    (validate : Bool) : PostCommentResult × Option String :=
  match env.submission with
  | Except.error e =>
    ({ success := false, error := some e, comment_id := none }, none)
  | Except.ok sub =>
    if validate then
      let verdict := env.validateCommentFn comment_text (submissionContext sub)
      if verdict.ok = false then
        ({ success := false,
           error := some ("Comment validation failed: " ++ verdict.reason),
           comment_id := none }, none)
      else replyAttempt env sub comment_text
    else replyAttempt env sub comment_text

/-- Shallow embedding of RedditClient.generate_and_post_comment.  The
oracle argument is the outcome of the run call made inside
generate_comment; a generated text starting with Error is treated as a
synthesis failure, any other text is forwarded to post_comment with
validation enabled. -/
def generate_and_post_comment (env : ClientEnv)
    (oracle : Except String String) : PostCommentResult × Option String :=
  match env.submission with
  | Except.error e =>
    ({ success := false, error := some e, comment_id := none }, none)
  | Except.ok _ =>
    let generated_comment := generate_comment oracle
    if pyStartsWith generated_comment "Error" then
      ({ success := false, error := some generated_comment,
         comment_id := none }, none)
    else
      post_comment env generated_comment true

/-! ## Engagement loop, auto-comment mode (reddit_bot.py,
RedditBot.auto_comment_on_posts) -/

/-- Observable events of the auto-comment loop: a comment attempt on a
post, and a fixed sleep measured in seconds. -/
inductive BotEvent where
  | attempt (post_id : String)
  | sleep (seconds : Nat)
deriving DecidableEq, Repr

/-- One entry of the result list of auto_comment_on_posts.  On the
exception path the source builds the entry without a comment id key,
modelled as none. -/
structure AttemptEntry where
  success : Bool
  error : Option String
  comment_id : Option String
  post_id : String
  post_title : String
deriving DecidableEq, Repr

/-- The eligibility filter of auto_comment_on_posts: minimum score, not
locked, not adult-flagged, fewer than 100 comments. -/
def eligiblePost (min_score : Int) (p : PostInfo) : Bool :=
  decide (min_score ≤ p.score) && !p.locked && !p.over_18 &&
    decide (p.num_comments < 100)

/-- The body loop of auto_comment_on_posts over the selected posts.  The
attempt argument stands for the generate_and_post_comment call, whose
whole try block may also raise (the error case).  On a returned result
the source appends the entry and sleeps 10 seconds inside the try block;
on a raised exception the handler appends a failure entry and continues
with the next post without sleeping. -/
def autoLoop (attempt : PostInfo → Except String PostCommentResult) :
    List PostInfo → List AttemptEntry × List BotEvent
  | [] => ([], [])
  | p :: rest =>
    match attempt p with
    | Except.ok r =>
      let (rs, evs) := autoLoop attempt rest
      ({ success := r.success, error := r.error, comment_id := r.comment_id,
         post_id := p.id, post_title := p.title } :: rs,
       BotEvent.attempt p.id :: BotEvent.sleep 10 :: evs)
    | Except.error e =>
      let (rs, evs) := autoLoop attempt rest
      ({ success := false, error := some e, comment_id := none,
         post_id := p.id, post_title := p.title } :: rs,
       BotEvent.attempt p.id :: evs)

/-- Shallow embedding of RedditBot.auto_comment_on_posts after the fetch
of candidate posts: filter to eligible posts, truncate to max_comments,
then run the comment loop.  Returns the result list and the event
trace. -/
def auto_comment_on_posts (attempt : PostInfo → Except String PostCommentResult)
    (posts : List PostInfo) (max_comments : Nat) (min_score : Int) :
    List AttemptEntry × List BotEvent :=
  let eligible_posts := posts.filter (eligiblePost min_score)
  autoLoop attempt (eligible_posts.take max_comments)

/-! ## Engagement loop, monitoring mode (reddit_bot.py,
RedditBot.monitor_subreddit) -/

/-- One recorded keyword match. -/
structure KeywordMatch where
  post_id : String
  title : String
  keyword : String
  matched_at : Nat
deriving DecidableEq, Repr

/-- The keyword scan of one monitoring iteration: for each post, the
lowercased concatenation of title and body is tested against each
lowercased keyword with the Python substring operator, and a match is
recorded per post and keyword in iteration order. -/
def scanForKeywords (posts : List PostInfo) (keywords : List String)
    (t : Nat) : List KeywordMatch :=
  posts.flatMap fun post =>
    let post_text := pyLower (post.title ++ " " ++ post.selftext)
    keywords.filterMap fun keyword =>
      if pyIn (pyLower keyword) post_text then
        some { post_id := post.id, title := post.title, keyword := keyword,
               matched_at := t }
      else none

/-- The polling loop of monitor_subreddit.  Time is an abstract clock in
seconds advanced only by the fixed sleeps of the source: 300 seconds
after a completed iteration, 60 seconds after an iteration whose fetch
raised.  The fetchAt argument gives, for the iteration starting at a
given time, either a raised exception or the fetched items as passed to
the per-item processing of get_subreddit_posts.  The comment action on a
matched post does not change the recorded match sequence and is not
modelled. -/
def monitorLoop (fetchAt : Nat → Except String (List (Except String PostInfo)))
    (keywords : List String) (endTime t : Nat)
    (match_list : List KeywordMatch) : List KeywordMatch :=
  if h : t < endTime then
    match fetchAt t with
    | Except.error _ => monitorLoop fetchAt keywords endTime (t + 60) match_list
    | Except.ok items =>
      let posts := collectValidPosts items
      monitorLoop fetchAt keywords endTime (t + 300)
        (match_list ++ scanForKeywords posts keywords t)
  else match_list
termination_by endTime - t
decreasing_by
  · omega
  · omega

/-- The dictionary returned by monitor_subreddit.  The source key named
matches is rendered match_list because matches is a reserved word of
Lean. -/
structure MonitorResult where
  total_matches : Nat
  match_list : List KeywordMatch
deriving DecidableEq, Repr

/-- Shallow embedding of RedditBot.monitor_subreddit: the deadline is
the start time plus the duration in hours, and the accumulated match
list is returned when the clock reaches it. -/
def monitor_subreddit (fetchAt : Nat → Except String (List (Except String PostInfo)))
    (keywords : List String) (start duration_hours : Nat) : MonitorResult :=
  let end_time := start + duration_hours * 3600
  let ms := monitorLoop fetchAt keywords end_time start []
  { total_matches := ms.length, match_list := ms }

/-! ## Session metrics (reddit_bot.py, RedditBot.get_bot_stats) -/

/-- The mutable counters of the stats dictionary of the bot. -/
structure StatsState where
  comments_posted : Nat
  posts_retrieved : Nat
  errors : Nat
deriving DecidableEq, Repr

/-- The snapshot returned by get_bot_stats, with the runtime fields
omitted and the Python float arithmetic of the success rate carried out
exactly in the rationals; every value the sources produce for it is a
dyadic rational represented exactly by a float. -/
structure BotStatsSnapshot where
  comments_posted : Nat
  posts_retrieved : Nat
  errors : Nat
  success_rate : ℚ

/-- Shallow embedding of RedditBot.get_bot_stats. -/
def get_bot_stats (s : StatsState) : BotStatsSnapshot :=
  { comments_posted := s.comments_posted
    posts_retrieved := s.posts_retrieved
    errors := s.errors
    success_rate :=
      ((s.comments_posted : ℚ) /
        ((max 1 (s.comments_posted + s.errors) : Nat) : ℚ)) * 100 }

/-! ## Claim-side reference definitions

The following definitions are written from the words of the spec and of
the claims, not from the sources, to be compared with the embeddings
above. -/

/-- Modelled from the words of claim C3: the reason of a rejection is
the response with the INVALID: prefix removed (when present) and then
trimmed. -/
def invalidReasonClaimed (result : String) : String :=
  pyStrip (if pyStartsWith result "INVALID:" then
    String.mk (result.data.drop 8) else result)

/-- Modelled from the words of the amended claim C3: the verdict derived
from the trimmed Oracle response once the structural checks have
passed.  The reason of the INVALID branch removes every occurrence of
the INVALID: substring before trimming. -/
def oracleVerdictAmended (resp : String) : Bool × String :=
  let result := pyStrip resp
  if pyStartsWith result "VALID" then (true, "Comment is valid")
  else if pyStartsWith result "INVALID" then
    (false, pyStrip (pyReplace result "INVALID:" ""))
  else (pyIn "valid" (pyLower result), "Content validation completed")

/-- Modelled from the words of claim C4: between every pair of
successive comment attempts a pacing delay occurs, so no two attempt
events are adjacent in the trace. -/
def noAdjacentAttempts : List BotEvent → Bool
  | BotEvent.attempt _ :: BotEvent.attempt _ :: _ => false
  | _ :: rest => noAdjacentAttempts rest
  | [] => true

/-- Modelled from the words of claim C5: strip one leading community
namespace tag, then accept exactly when the remainder matches the
anchored pattern, returning the remainder on success. -/
def subredditNameClaimed (subreddit : String) : Bool × String :=
  let remainder :=
    if pyStartsWith subreddit "r/" || pyStartsWith subreddit "R/" then
      String.mk (subreddit.data.drop 2)
    else subreddit
  if subredditPatternAccepts remainder then (true, remainder)
  else (false, "Invalid subreddit name format")

/-- Modelled from the words of the amended claim C5: an empty input is
rejected, every occurrence of the two community namespace tags anywhere
in the input is removed, and the remainder is accepted exactly when it
matches the anchored pattern. -/
def subredditNameAmended (subreddit : String) : Bool × String :=
  if subreddit == "" then (false, "Subreddit name cannot be empty")
  else
    let remainder := pyReplace (pyReplace subreddit "r/" "") "R/" ""
    if subredditPatternAccepts remainder then (true, remainder)
    else (false, "Invalid subreddit name format")

/-- Modelled from the words of claim C7: split the raw response into
lines, drop empty lines and lines starting with a self-referential
marker, rejoin; when nothing remains return the raw response
unchanged. -/
def generateCleanClaimed (resp : String) : String :=
  let kept := (pySplitNewline resp).filter fun line =>
    line != "" && !startsWithMetaTag line
  if kept.isEmpty then resp else joinWithNewline kept

/-- Modelled from the words of the amended claim C7: trim the response,
split into lines, drop whitespace-only lines and lines starting with a
self-referential marker, trim each kept line, rejoin; when nothing
remains return the trimmed response. -/
def generateCleanAmended (resp : String) : String :=
  let trimmed := pyStrip resp
  let kept := ((pySplitNewline trimmed).filter fun line =>
    pyStrip line != "" && !startsWithMetaTag line).map pyStrip
  if kept.isEmpty then trimmed else joinWithNewline kept


/-! ## Claim theorems -/

/-- Helper for claim C7: the line comprehension of generate_comment
equals filtering on the kept-line test followed by trimming each kept
line. -/
theorem filterMap_lines_eq (l : List String) :
    (l.filterMap fun line =>
      if pyStrip line != "" && !startsWithMetaTag line then
        some (pyStrip line)
      else none) =
      (l.filter fun line => pyStrip line != "" && !startsWithMetaTag line).map
        pyStrip := by
  induction l with
  | nil => rfl
  | cons a t ih =>
    cases hc : (pyStrip a != "" && !startsWithMetaTag a) with
    | true =>
      rw [List.filterMap_cons, List.filter_cons, if_pos hc, if_pos hc, ih,
        List.map_cons]
    | false =>
      have hn : ¬ (pyStrip a != "" && !startsWithMetaTag a) = true := by
        rw [hc]
        exact Bool.false_ne_true
      rw [List.filterMap_cons, List.filter_cons, if_neg hn, if_neg hn, ih]

/-- C2: a comment whose trimmed length is below the configured minimum
is rejected with the minimum-length reason even when the raw length also
exceeds the maximum, a comment passing the minimum check whose raw
length exceeds the configured maximum is rejected with the
maximum-length reason, and in every such case the verdict is rejecting
and the Oracle is never invoked. -/
theorem claim_C2_structural_checks (text ctx : String)
    (oracle : Except String String) :
    (pyLen (pyStrip text) < Config.MIN_COMMENT_LENGTH →
      validate_comment text ctx oracle =
        { ok := false,
          reason := "Comment too short (minimum 10 characters)",
          oracleCalled := false }) ∧
    (¬ pyLen (pyStrip text) < Config.MIN_COMMENT_LENGTH →
      pyLen text > Config.MAX_COMMENT_LENGTH →
      validate_comment text ctx oracle =
        { ok := false,
          reason := "Comment too long (maximum 10000 characters)",
          oracleCalled := false }) ∧
    ((pyLen (pyStrip text) < Config.MIN_COMMENT_LENGTH ∨
        pyLen text > Config.MAX_COMMENT_LENGTH) →
      (validate_comment text ctx oracle).ok = false ∧
      (validate_comment text ctx oracle).oracleCalled = false) := by
  refine ⟨?_, ?_, ?_⟩
  · intro h
    unfold validate_comment
    rw [if_pos h]
    decide
  · intro h1 h2
    unfold validate_comment
    rw [if_neg h1, if_pos h2]
    decide
  · intro h
    by_cases h1 : pyLen (pyStrip text) < Config.MIN_COMMENT_LENGTH
    · unfold validate_comment
      rw [if_pos h1]
      exact ⟨rfl, rfl⟩
    · have h2 : pyLen text > Config.MAX_COMMENT_LENGTH := by
        rcases h with h | h
        · exact absurd h h1
        · exact h
      unfold validate_comment
      rw [if_neg h1, if_pos h2]
      exact ⟨rfl, rfl⟩

/-- C2 witness: the short comment from the spec example is rejected with
the minimum-length reason without an Oracle call. -/
theorem claim_C2_witness :
    validate_comment "short" "some context" (Except.ok "VALID") =
      { ok := false, reason := "Comment too short (minimum 10 characters)",
        oracleCalled := false } :=
  (claim_C2_structural_checks "short" "some context" (Except.ok "VALID")).1
    (by decide)

/-- C3 counterexample: on the trimmed Oracle response built from two
occurrences of the INVALID: token the code removes every occurrence
before trimming, so the reason differs from the response with only the
leading token removed, which is what the claim states. -/
theorem claim_C3_counterexample :
    (validate_comment "a comment of honest length" ""
      (Except.ok "INVALID: INVALID: spam")).reason = "spam" ∧
    invalidReasonClaimed (pyStrip "INVALID: INVALID: spam") = "INVALID: spam" ∧
    ("spam" : String) ≠ "INVALID: spam" := by
  decide

/-- C3 amended: for a structurally acceptable comment the verdict and
reason returned by validate_comment are exactly those derived from the
trimmed Oracle response by the amended mapping, whose INVALID branch
removes every occurrence of the INVALID: substring before trimming. -/
theorem claim_C3_oracle_verdict (text ctx resp : String)
    (hmin : ¬ pyLen (pyStrip text) < Config.MIN_COMMENT_LENGTH)
    (hmax : ¬ pyLen text > Config.MAX_COMMENT_LENGTH) :
    (validate_comment text ctx (Except.ok resp)).ok =
      (oracleVerdictAmended resp).1 ∧
    (validate_comment text ctx (Except.ok resp)).reason =
      (oracleVerdictAmended resp).2 := by
  unfold validate_comment oracleVerdictAmended
  rw [if_neg hmin, if_neg hmax]
  by_cases h1 : pyStartsWith (pyStrip resp) "VALID"
  · simp [h1]
  · by_cases h2 : pyStartsWith (pyStrip resp) "INVALID"
    · simp [h1, h2]
    · simp [h1, h2]

/-- C3 witness: the spec example INVALID: too spammy yields a rejection
whose reason is too spammy, matching the amended mapping. -/
theorem claim_C3_witness :
    (validate_comment "a comment of honest length" ""
      (Except.ok "INVALID: too spammy")).ok =
      (oracleVerdictAmended "INVALID: too spammy").1 ∧
    (validate_comment "a comment of honest length" ""
      (Except.ok "INVALID: too spammy")).reason =
      (oracleVerdictAmended "INVALID: too spammy").2 :=
  claim_C3_oracle_verdict "a comment of honest length" "" "INVALID: too spammy"
    (by decide) (by decide)

/-- C5 counterexample: the input abr/cd has no leading community
namespace tag, so under the claim it must be rejected, yet the code
removes the inner occurrence of r/ and accepts the remainder abcd. -/
theorem claim_C5_counterexample :
    validate_subreddit_name "abr/cd" = (true, "abcd") ∧
    (subredditNameClaimed "abr/cd").1 = false := by
  decide

/-- C5 amended: validate_subreddit_name agrees everywhere with the
amended reference function that removes every occurrence of the two
community namespace tags anywhere in the input and then applies the
anchored pattern; the two spec examples are included. -/
theorem claim_C5_subreddit_name :
    (∀ s : String, validate_subreddit_name s = subredditNameAmended s) ∧
    validate_subreddit_name "r/Python" = (true, "Python") ∧
    (validate_subreddit_name "a").1 = false := by
  refine ⟨?_, by decide, by decide⟩
  intro s
  unfold validate_subreddit_name subredditNameAmended
  by_cases h0 : (s == "") = true
  · simp [h0]
  · simp only [h0, if_false]
    cases hA : subredditPatternAccepts (pyReplace (pyReplace s "r/" "") "R/" "") with
    | true => simp [hA]
    | false => simp [hA]

/-- C6: once the structural checks pass, a raised Oracle exception is
caught and converted into a rejecting verdict whose reason carries the
failure description; no exception escapes validate_comment, which is
total by construction. -/
theorem claim_C6_oracle_failure_degrades (text ctx e : String)
    (hmin : ¬ pyLen (pyStrip text) < Config.MIN_COMMENT_LENGTH)
    (hmax : ¬ pyLen text > Config.MAX_COMMENT_LENGTH) :
    validate_comment text ctx (Except.error e) =
      { ok := false, reason := "Validation error: " ++ e,
        oracleCalled := true } := by
  unfold validate_comment
  rw [if_neg hmin, if_neg hmax]

/-- C6 witness: a quota failure of the Oracle degrades to a rejecting
verdict carrying the failure text. -/
theorem claim_C6_witness :
    validate_comment "a comment of honest length" ""
      (Except.error "quota exhausted") =
      { ok := false, reason := "Validation error: quota exhausted",
        oracleCalled := true } :=
  claim_C6_oracle_failure_degrades "a comment of honest length" ""
    "quota exhausted" (by decide) (by decide)

/-- C7 counterexample: on the Oracle response consisting of a
self-referential first line and an indented second line, the code trims
the kept line and returns nice, while the claim, which keeps lines
untrimmed, dictates the indented line unchanged. -/
theorem claim_C7_counterexample :
    generate_comment (Except.ok "Here is a comment:\n   nice   ") = "nice" ∧
    generateCleanClaimed "Here is a comment:\n   nice   " = "   nice   " ∧
    ("nice" : String) ≠ "   nice   " := by
  decide

/-- C7 amended: for every Oracle response, generate_comment returns the
result of the amended cleaning: trim the response, drop whitespace-only
lines and lines starting with a self-referential marker, trim each kept
line, rejoin with newlines, and fall back to the trimmed response when
no line remains. -/
theorem claim_C7_generate_comment_clean (resp : String) :
    generate_comment (Except.ok resp) = generateCleanAmended resp := by
  unfold generate_comment generateCleanAmended
  simp only [filterMap_lines_eq]

/-- C8: the success rate of the stats snapshot is 0 with no posted
comments and no errors, is 75 with 3 posted and 1 error, and its
denominator is guarded away from zero for every counter state. -/
theorem claim_C8_success_rate :
    (get_bot_stats (StatsState.mk 0 0 0)).success_rate = 0 ∧
    (get_bot_stats (StatsState.mk 3 5 1)).success_rate = 75 ∧
    ∀ s : StatsState,
      ((max 1 (s.comments_posted + s.errors) : Nat) : ℚ) ≠ 0 := by
  refine ⟨?_, ?_, ?_⟩
  · unfold get_bot_stats
    norm_num
  · unfold get_bot_stats
    norm_num
  · intro s
    exact Nat.cast_ne_zero.mpr (by omega)

/-- Helper for claim C4: the event trace of the comment loop lists, for
each post in order, the attempt followed by the 10 second sleep exactly
when the attempt returned a result, and the attempt alone when it
raised. -/
theorem autoLoop_events (attempt : PostInfo → Except String PostCommentResult)
    (l : List PostInfo) :
    (autoLoop attempt l).2 = l.flatMap (fun p =>
      match attempt p with
      | Except.ok _ => [BotEvent.attempt p.id, BotEvent.sleep 10]
      | Except.error _ => [BotEvent.attempt p.id]) := by
  induction l with
  | nil => rfl
  | cons p rest ih =>
    cases hp : attempt p with
    | ok r => simp [autoLoop, hp, ih]
    | error e => simp [autoLoop, hp, ih]

/-- First post of the C4 counterexample scenario; it passes the
eligibility filter. -/
def cePost1 : PostInfo :=
  { id := "p1", title := "first post", author := "alice", score := 5,
    num_comments := 2, created_utc := 100, selftext := "body one",
    locked := false, over_18 := false, permalink := "/r/test/p1" }

/-- Second post of the C4 counterexample scenario; it also passes the
eligibility filter. -/
def cePost2 : PostInfo :=
  { id := "p2", title := "second post", author := "bob", score := 3,
    num_comments := 0, created_utc := 200, selftext := "body two",
    locked := false, over_18 := false, permalink := "/r/test/p2" }

/-- Attempt outcomes of the C4 counterexample scenario: the attempt on
the first post raises, the attempt on the second returns success. -/
def ceAttempt : PostInfo → Except String PostCommentResult := fun p =>
  if p.id == "p1" then Except.error "connection reset"
  else Except.ok { success := true, error := none, comment_id := some "c42" }

/-- C4 counterexample: when the attempt on the first eligible post
raises, the trace holds the two attempts adjacent with no sleep between
them, so the pacing delay is not enforced between every pair of
successive attempts as the claim states. -/
theorem claim_C4_counterexample :
    (auto_comment_on_posts ceAttempt [cePost1, cePost2] 5 0).2 =
      [BotEvent.attempt "p1", BotEvent.attempt "p2", BotEvent.sleep 10] ∧
    noAdjacentAttempts
      (auto_comment_on_posts ceAttempt [cePost1, cePost2] 5 0).2 = false := by
  decide

/-- C4 amended: the event trace of auto_comment_on_posts interleaves a
10 second sleep after every attempt that completes with a result,
successful or failed alike, while an attempt that raises an exception is
followed directly by the next attempt without the pacing sleep. -/
theorem claim_C4_pacing (attempt : PostInfo → Except String PostCommentResult)
    (posts : List PostInfo) (max_comments : Nat) (min_score : Int) :
    (auto_comment_on_posts attempt posts max_comments min_score).2 =
      ((posts.filter (eligiblePost min_score)).take max_comments).flatMap
        (fun p =>
          match attempt p with
          | Except.ok _ => [BotEvent.attempt p.id, BotEvent.sleep 10]
          | Except.error _ => [BotEvent.attempt p.id]) := by
  unfold auto_comment_on_posts
  exact autoLoop_events attempt _

/-- Helper for claim C9: the loop returns the accumulator unchanged once
the clock has reached the deadline. -/
theorem monitorLoop_stop
    (fetchAt : Nat → Except String (List (Except String PostInfo)))
    (keywords : List String) (endTime t : Nat) (acc : List KeywordMatch)
    (h : ¬ t < endTime) :
    monitorLoop fetchAt keywords endTime t acc = acc := by
  rw [monitorLoop.eq_def, dif_neg h]

/-- Helper for claim C9: one iteration whose fetch raises advances the
clock by the 60 second backoff and records nothing. -/
theorem monitorLoop_step_error
    (fetchAt : Nat → Except String (List (Except String PostInfo)))
    (keywords : List String) (endTime t : Nat) (acc : List KeywordMatch)
    (h : t < endTime) (msg : String) (hf : fetchAt t = Except.error msg) :
    monitorLoop fetchAt keywords endTime t acc =
      monitorLoop fetchAt keywords endTime (t + 60) acc := by
  rw [monitorLoop.eq_def, dif_pos h, hf]

/-- Helper for claim C9: one completed iteration appends the matches of
its scan and advances the clock by the 300 second poll interval. -/
theorem monitorLoop_step_ok
    (fetchAt : Nat → Except String (List (Except String PostInfo)))
    (keywords : List String) (endTime t : Nat) (acc : List KeywordMatch)
    (h : t < endTime) (items : List (Except String PostInfo))
    (hf : fetchAt t = Except.ok items) :
    monitorLoop fetchAt keywords endTime t acc =
      monitorLoop fetchAt keywords endTime (t + 300)
        (acc ++ scanForKeywords (collectValidPosts items) keywords t) := by
  rw [monitorLoop.eq_def, dif_pos h, hf]

/-- Helper for claim C9: the accumulator passes through the loop as a
pure list predecessor, so the result is the initial accumulator followed
by exactly the matches recorded by the iterations. -/
theorem monitorLoop_acc
    (fetchAt : Nat → Except String (List (Except String PostInfo)))
    (keywords : List String) (endTime : Nat) :
    ∀ (n t : Nat) (acc : List KeywordMatch), endTime - t ≤ n →
      monitorLoop fetchAt keywords endTime t acc =
        acc ++ monitorLoop fetchAt keywords endTime t [] := by
  intro n
  induction n with
  | zero =>
    intro t acc h
    have hn : ¬ t < endTime := by omega
    rw [monitorLoop_stop fetchAt keywords endTime t acc hn,
      monitorLoop_stop fetchAt keywords endTime t [] hn, List.append_nil]
  | succ n ih =>
    intro t acc h
    by_cases hlt : t < endTime
    · cases hf : fetchAt t with
      | error msg =>
        rw [monitorLoop_step_error fetchAt keywords endTime t acc hlt msg hf,
          monitorLoop_step_error fetchAt keywords endTime t [] hlt msg hf]
        exact ih (t + 60) acc (by omega)
      | ok items =>
        rw [monitorLoop_step_ok fetchAt keywords endTime t acc hlt items hf,
          monitorLoop_step_ok fetchAt keywords endTime t [] hlt items hf,
          List.nil_append,
          ih (t + 300)
            (acc ++ scanForKeywords (collectValidPosts items) keywords t)
            (by omega),
          ih (t + 300) (scanForKeywords (collectValidPosts items) keywords t)
            (by omega),
          List.append_assoc]
    · rw [monitorLoop_stop fetchAt keywords endTime t acc hlt,
        monitorLoop_stop fetchAt keywords endTime t [] hlt, List.append_nil]

/-- C9: the monitoring loop body runs only while the clock is strictly
before the deadline, so a deadline already reached at entry yields the
accumulator unchanged; the accumulator passes through untouched ahead of
the matches recorded by the iterations performed; and a monitoring call
of zero duration returns an empty match list at once. -/
theorem claim_C9_monitor_deadline :
    (∀ (fetchAt : Nat → Except String (List (Except String PostInfo)))
      (keywords : List String) (endTime t : Nat) (acc : List KeywordMatch),
      ¬ t < endTime → monitorLoop fetchAt keywords endTime t acc = acc) ∧
    (∀ (fetchAt : Nat → Except String (List (Except String PostInfo)))
      (keywords : List String) (endTime t : Nat) (acc : List KeywordMatch),
      monitorLoop fetchAt keywords endTime t acc =
        acc ++ monitorLoop fetchAt keywords endTime t []) ∧
    (∀ (fetchAt : Nat → Except String (List (Except String PostInfo)))
      (keywords : List String) (start : Nat),
      (monitor_subreddit fetchAt keywords start 0).match_list = []) := by
  refine ⟨?_, ?_, ?_⟩
  · intro fetchAt keywords endTime t acc h
    exact monitorLoop_stop fetchAt keywords endTime t acc h
  · intro fetchAt keywords endTime t acc
    exact monitorLoop_acc fetchAt keywords endTime (endTime - t) t acc
      (le_refl _)
  · intro fetchAt keywords start
    have h := monitorLoop_stop fetchAt keywords (start + 0 * 3600) start []
      (by omega)
    simpa [monitor_subreddit] using h

/-- C9 witness: a loop entered with the clock already past the deadline
performs no iteration and returns the empty match list. -/
theorem claim_C9_witness :
    monitorLoop (fun _ => Except.error "network down") ["deal"] 5 7 [] = [] :=
  claim_C9_monitor_deadline.1 (fun _ => Except.error "network down") ["deal"]
    5 7 [] (by decide)

/-- Helper for claim C10: membership in the shared per-item collection
implies an accepting validate_post_data verdict. -/
theorem mem_collectValidPosts (items : List (Except String PostInfo))
    (p : PostInfo) (hp : p ∈ collectValidPosts items) :
    (validate_post_data p.fields).1 = true := by
  unfold collectValidPosts at hp
  rw [List.mem_filterMap] at hp
  obtain ⟨it, _, hit⟩ := hp
  cases it with
  | error e => simp at hit
  | ok q =>
    by_cases hv : (validate_post_data q.fields).1 = true
    · simp only [hv, if_true] at hit
      cases hit
      exact hv
    · simp [hv] at hit

/-- C10: every post dictionary in a list returned by get_subreddit_posts
or by search_posts satisfies validate_post_data; items failing the check
or raising during extraction are dropped without failing the call. -/
theorem claim_C10_returned_posts_validated
    (name sort_by : String) (sub : Option String)
    (items : List (Except String PostInfo)) (l : List PostInfo)
    (p : PostInfo) :
    (get_subreddit_posts name sort_by items = Except.ok l → p ∈ l →
      (validate_post_data p.fields).1 = true) ∧
    (search_posts sub items = Except.ok l → p ∈ l →
      (validate_post_data p.fields).1 = true) := by
  constructor
  · intro h hp
    unfold get_subreddit_posts at h
    by_cases h1 : (!(validate_subreddit_name name).1) = true
    · rw [if_pos h1] at h
      exact absurd h (by simp)
    · rw [if_neg h1] at h
      by_cases h2 : (!(sort_by == "hot" || sort_by == "new" ||
          sort_by == "top" || sort_by == "rising")) = true
      · rw [if_pos h2] at h
        exact absurd h (by simp)
      · rw [if_neg h2] at h
        cases h
        exact mem_collectValidPosts items p hp
  · intro h hp
    unfold search_posts at h
    cases sub with
    | none =>
      cases h
      exact mem_collectValidPosts items p hp
    | some nm =>
      by_cases h1 : (!(validate_subreddit_name nm).1) = true
      · simp only [h1, if_true] at h
        exact absurd h (by simp)
      · simp only [h1] at h
        rw [if_neg (by simp [h1])] at h
        cases h
        exact mem_collectValidPosts items p hp

/-- A post dictionary with a usable identifier and title, used by the
C10 witness. -/
def wGoodPost : PostInfo :=
  { id := "abc123", title := "Interesting result", author := "carol",
    score := 12, num_comments := 4, created_utc := 300,
    selftext := "details inside", locked := false, over_18 := false,
    permalink := "/r/test/abc123" }

/-- A post dictionary with a blank title, dropped by the validation
check, used by the C10 witness scenario. -/
def wBlankPost : PostInfo :=
  { id := "zzz999", title := "   ", author := "dave", score := 1,
    num_comments := 0, created_utc := 400, selftext := "",
    locked := false, over_18 := false, permalink := "/r/test/zzz999" }

/-- C10 witness: in a fetch where one item extracts to a valid
dictionary, one extracts to a blank-titled dictionary and one raises,
the returned list holds exactly the valid dictionary and it satisfies
validate_post_data. -/
theorem claim_C10_witness : (validate_post_data wGoodPost.fields).1 = true :=
  (claim_C10_returned_posts_validated "Python" "hot" none
    [Except.ok wGoodPost, Except.ok wBlankPost, Except.error "shard error"]
    [wGoodPost] wGoodPost).1 (by rfl) (by decide)

/-- Helper for claim C1: whenever the reply stage reports a submitted
text, that text is the comment text it was invoked with. -/
theorem replyAttempt_sent (env : ClientEnv) (sub : SubmissionInfo)
    (comment_text s : String)
    (h : (replyAttempt env sub comment_text).2 = some s) : s = comment_text := by
  unfold replyAttempt at h
  by_cases hl : sub.locked = true
  · rw [if_pos hl] at h
    exact absurd h (by simp)
  · rw [if_neg hl] at h
    cases hr : env.replyResult comment_text with
    | ok c =>
      rw [hr] at h
      simp at h
      exact h.symm
    | error err =>
      rw [hr] at h
      cases err with
      | forbidden =>
        simp at h
        exact h.symm
      | tooManyRequests =>
        simp at h
        exact h.symm
      | other m =>
        simp at h
        exact h.symm

/-- Helper for claim C1: if post_comment submitted a text to the
Gateway, the text is the argument text, and under validation the stored
validator verdict on it was accepting. -/
theorem post_comment_sent (env : ClientEnv) (text : String) (validate : Bool)
    (s : String) (h : (post_comment env text validate).2 = some s) :
    s = text ∧ (validate = true →
      ∀ sub, env.submission = Except.ok sub →
        (env.validateCommentFn text (submissionContext sub)).ok = true) := by
  cases hsub : env.submission with
  | error e =>
    simp only [post_comment.eq_def, hsub] at h
    exact absurd h (by simp)
  | ok sub =>
    simp only [post_comment.eq_def, hsub] at h
    by_cases hv : validate = true
    · by_cases hok : (env.validateCommentFn text (submissionContext sub)).ok = false
      · simp [hv, hok] at h
      · simp only [hv, if_true, hok, if_false] at h
        refine ⟨replyAttempt_sent env sub text s h, ?_⟩
        intro _ sub' hsub'
        injection hsub' with he
        subst he
        cases hb : (env.validateCommentFn text (submissionContext sub)).ok with
        | true => rfl
        | false => exact absurd hb hok
    · have hvf : validate = false := by
        cases validate
        · rfl
        · exact absurd rfl hv
      simp only [hvf, Bool.false_eq_true, if_false] at h
      exact ⟨replyAttempt_sent env sub text s h, fun hvt => absurd hvt hv⟩

/-- C1: a text reaches the reply call of the Gateway through
post_comment only when it is the argument text and, unless the caller
passed validate as false, the validator verdict on it with the post
context was accepting; and every text submitted through
generate_and_post_comment is the generated comment and carries an
accepting verdict, since that path always validates. -/
theorem claim_C1_validation_gates_submission (env : ClientEnv) (text : String)
    (validate : Bool) (s : String) (oracle : Except String String) :
    ((post_comment env text validate).2 = some s →
      s = text ∧ (validate = true →
        ∀ sub, env.submission = Except.ok sub →
          (env.validateCommentFn text (submissionContext sub)).ok = true)) ∧
    ((generate_and_post_comment env oracle).2 = some s →
      s = generate_comment oracle ∧
        ∀ sub, env.submission = Except.ok sub →
          (env.validateCommentFn (generate_comment oracle)
            (submissionContext sub)).ok = true) := by
  constructor
  · exact post_comment_sent env text validate s
  · intro h
    cases hsub : env.submission with
    | error e =>
      simp only [generate_and_post_comment.eq_def, hsub] at h
      exact absurd h (by simp)
    | ok sub =>
      simp only [generate_and_post_comment.eq_def, hsub] at h
      by_cases hg : pyStartsWith (generate_comment oracle) "Error" = true
      · simp [hg] at h
      · simp only [hg, Bool.false_eq_true, if_false] at h
        obtain ⟨h1, h2⟩ := post_comment_sent env (generate_comment oracle)
          true s h
        refine ⟨h1, ?_⟩
        intro sub' hsub'
        exact h2 rfl sub' (hsub.trans hsub')

/-- Environment of the C1 witness: an open submission, the embedded
validator run against an accepting Oracle, and a reply call that
succeeds. -/
def wEnv : ClientEnv :=
  { submission := Except.ok
      { title := "A title", selftext := "A body", locked := false }
    validateCommentFn := fun text ctx =>
      validate_comment text ctx (Except.ok "VALID")
    replyResult := fun _ =>
      Except.ok { id := "c77", permalink := "/r/test/c77" } }

/-- C1 witness: a concrete validated submission path in which the
submitted text equals the posted text and the verdict on it was
accepting. -/
theorem claim_C1_witness :
    ("this is a thoughtful reply" : String) = "this is a thoughtful reply" ∧
    (true = true → ∀ sub, wEnv.submission = Except.ok sub →
      (wEnv.validateCommentFn "this is a thoughtful reply"
        (submissionContext sub)).ok = true) :=
  (claim_C1_validation_gates_submission wEnv "this is a thoughtful reply"
    true "this is a thoughtful reply" (Except.ok "ignored")).1 (by rfl)
